import Mathlib

/-!
Shallow embedding of the fitness-tracker module `homework.py`.

The module computes workout summary statistics (distance, mean speed,
calories) for three activity variants (Running, SportsWalking, Swimming),
builds sessions from `(workout_type, data)` packages, and renders a fixed
one-line report.  All Python floats are modelled as exact rationals `ℚ`;
the fixed 3-decimal formatting of the report is modelled by an explicit
round-to-thousandths (ties to even) renderer.
-/

namespace Homework

/-- Round a rational to the nearest integer, ties going to the even
integer; this models the rounding applied by fixed-point formatting. -/
def roundHalfEven (q : ℚ) : ℤ :=
  let f := ⌊q⌋
  let r := q - (f : ℚ)
  if r < 1/2 then f
  else if 1/2 < r then f + 1
  else if 2 ∣ f then f else f + 1

/-- Three decimal digits of a number below 1000, zero padded to width 3. -/
def pad3 (n : ℕ) : String :=
  String.mk [Nat.digitChar (n / 100 % 10), Nat.digitChar (n / 10 % 10),
             Nat.digitChar (n % 10)]

/-- Integer part of the fixed 3-decimal rendering of a rational. -/
def fmt3Int (q : ℚ) : String :=
  let n := roundHalfEven (q * 1000)
  (if n < 0 then "-" else "") ++ toString (n.natAbs / 1000)

/-- Fractional part (exactly three digits) of the fixed 3-decimal
rendering of a rational. -/
def fmt3Frac (q : ℚ) : String :=
  pad3 ((roundHalfEven (q * 1000)).natAbs % 1000)

/-- Fixed 3-decimal rendering of a rational: models the `.3f` format
specifier used by `InfoMessage.Message`. -/
def fmt3 (q : ℚ) : String := fmt3Int q ++ "." ++ fmt3Frac q

/-- The `InfoMessage` dataclass of `homework.py`: activity label plus the
four numeric summary fields. -/
structure InfoMessage where
  training_type : String
  duration : ℚ
  distance : ℚ
  speed : ℚ
  calories : ℚ
deriving DecidableEq

/-- The `InfoMessage.get_message` method: the constant template
interpolates the five fields, the four numeric ones at 3 decimals. -/
def InfoMessage.get_message (m : InfoMessage) : String :=
  "Тип тренировки: " ++ m.training_type
    ++ "; Длительность: " ++ fmt3 m.duration
    ++ " ч.; Дистанция: " ++ fmt3 m.distance
    ++ " км; Ср. скорость: " ++ fmt3 m.speed
    ++ " км/ч; Потрачено ккал: " ++ fmt3 m.calories ++ "."

/-- The `Training` class hierarchy of `homework.py` as a closed set of
variants: `Running(action, duration, weight)`,
`SportsWalking(action, duration, weight, height)`,
`Swimming(action, duration, weight, length_pool, count_pool)`. -/
inductive Training where
  | running (action duration weight : ℚ)
  | sportsWalking (action duration weight height : ℚ)
  | swimming (action duration weight length_pool count_pool : ℚ)
deriving DecidableEq

/-- The class constant `Training.M_IN_KM = 1000`. -/
def M_IN_KM : ℚ := 1000

/-- The class constant `Training.HOURS_IN_MINUTES = 60`. -/
def HOURS_IN_MINUTES : ℚ := 60

/-- The class constant `LEN_STEP`: 0.65 on the base class (inherited by
Running and SportsWalking), overridden to 1.38 by Swimming. -/
def Training.LEN_STEP : Training → ℚ
  | .swimming _ _ _ _ _ => 1.38
  | _ => 0.65

/-- The common attribute `self.action`. -/
def Training.action : Training → ℚ
  | .running a _ _ => a
  | .sportsWalking a _ _ _ => a
  | .swimming a _ _ _ _ => a

/-- The common attribute `self.duration`. -/
def Training.duration : Training → ℚ
  | .running _ d _ => d
  | .sportsWalking _ d _ _ => d
  | .swimming _ d _ _ _ => d

/-- The common attribute `self.weight`. -/
def Training.weight : Training → ℚ
  | .running _ _ w => w
  | .sportsWalking _ _ w _ => w
  | .swimming _ _ w _ _ => w

/-- The method `Training.get_distance`: `action * LEN_STEP / M_IN_KM`,
inherited unchanged by all three variants. -/
def Training.get_distance (t : Training) : ℚ :=
  t.action * t.LEN_STEP / M_IN_KM

/-- The method `Training.get_mean_speed`: the base definition
`get_distance() / duration`, overridden by Swimming to
`length_pool * count_pool / M_IN_KM / duration`. -/
def Training.get_mean_speed : Training → ℚ
  | .swimming _ d _ l c => l * c / M_IN_KM / d
  | t => t.get_distance / t.duration

/-- The class constant `Running.CALORIES_MEAN_SPEED_MULTIPLIER = 18`. -/
def CALORIES_MEAN_SPEED_MULTIPLIER : ℚ := 18

/-- The class constant `Running.CALORIES_MEAN_SPEED_SHIFT = 1.79`. -/
def CALORIES_MEAN_SPEED_SHIFT : ℚ := 1.79

/-- The class constant `SportsWalking.MULTIPLIER_CALORIES_1 = 0.035`. -/
def MULTIPLIER_CALORIES_1 : ℚ := 0.035

/-- The class constant `SportsWalking.MULTIPLIER_CALORIES_2 = 0.029`. -/
def MULTIPLIER_CALORIES_2 : ℚ := 0.029

/-- The class constant `SportsWalking.KMHOUR_IN_MSECOND = 0.278`. -/
def KMHOUR_IN_MSECOND : ℚ := 0.278

/-- The class constant `SportsWalking.SM_IN_MTR = 100`. -/
def SM_IN_MTR : ℚ := 100

/-- The class constant `Swimming.MULTIPLIER_CALORIES_3 = 1.1`. -/
def MULTIPLIER_CALORIES_3 : ℚ := 1.1

/-- The class constant `Swimming.MULTIPLIER_CALORIES_4 = 2`. -/
def MULTIPLIER_CALORIES_4 : ℚ := 2

/-- The method `get_spent_calories`, implemented by each of the three
concrete variants (the abstract base raises NotImplementedError and is
never instantiated by the program, so the model is total over the three
variants). -/
def Training.get_spent_calories : Training → ℚ
  | .running a d w =>
      (CALORIES_MEAN_SPEED_MULTIPLIER * (Training.running a d w).get_mean_speed
        + CALORIES_MEAN_SPEED_SHIFT)
        * w / M_IN_KM * d * HOURS_IN_MINUTES
  | .sportsWalking a d w h =>
      (MULTIPLIER_CALORIES_1 * w
        + ((Training.sportsWalking a d w h).get_mean_speed
            * KMHOUR_IN_MSECOND) ^ 2 / (h / SM_IN_MTR)
          * MULTIPLIER_CALORIES_2 * w)
        * (d * HOURS_IN_MINUTES)
  | .swimming a d w l c =>
      ((Training.swimming a d w l c).get_mean_speed + MULTIPLIER_CALORIES_3)
        * MULTIPLIER_CALORIES_4 * w * d

/-- The value of `self.__class__.__name__` for each variant. -/
def Training.className : Training → String
  | .running _ _ _ => "Running"
  | .sportsWalking _ _ _ _ => "SportsWalking"
  | .swimming _ _ _ _ _ => "Swimming"

/-- The method `Training.show_training_info`: assembles the
`InfoMessage` from the class name, the stored duration and the three
derived quantities. -/
def Training.show_training_info (t : Training) : InfoMessage :=
  ⟨t.className, t.duration, t.get_distance, t.get_mean_speed,
   t.get_spent_calories⟩

/-- The two failure modes of `read_package`: the explicit ValueError on
an unknown workout type, and the TypeError produced by positional
unpacking when `data` does not match the constructor arity. -/
inductive ReadError where
  | invalidWorkout
  | arityError
deriving DecidableEq

/-- The function `read_package(workout_type, data)`: dispatches on the
code ('SWM', 'RUN', 'WLK'), raises ValueError on any other code, and
positionally unpacks `data` into the chosen constructor. -/
def read_package (workout_type : String) (data : List ℚ) :
    Except ReadError Training :=
  if workout_type = "SWM" then
    match data with
    | [a, d, w, l, c] => .ok (.swimming a d w l c)
    | _ => .error .arityError
  else if workout_type = "RUN" then
    match data with
    | [a, d, w] => .ok (.running a d w)
    | _ => .error .arityError
  else if workout_type = "WLK" then
    match data with
    | [a, d, w, h] => .ok (.sportsWalking a d w h)
    | _ => .error .arityError
  else .error .invalidWorkout

/-- The rendering rule exactly as the spec's template states it
(section 6 of the spec), for comparison with the implementation's
`InfoMessage.get_message`. -/
def specRender (m : InfoMessage) : String :=
  "Тип тренировки: " ++ m.training_type
    ++ "; Длительность: " ++ fmt3 m.duration
    ++ " ч.; Дистанция: " ++ fmt3 m.distance
    ++ " км; Ср. скорость: " ++ fmt3 m.speed
    ++ " км/ч; Потрачено ккал: " ++ fmt3 m.calories ++ "."

/-- Evaluation helper: rounding an integer-valued rational is the
identity. -/
lemma roundHalfEven_natCast (n : ℕ) : roundHalfEven ((n : ℤ) : ℚ) = n := by
  unfold roundHalfEven
  norm_num

/-- Evaluation helper: the 3-decimal rendering of a nonnegative rational
whose thousandths value is the natural number n. -/
lemma fmt3_eval (q : ℚ) (n : ℕ) (h : q * 1000 = ((n : ℤ) : ℚ)) :
    fmt3 q = toString (n / 1000) ++ "." ++ pad3 (n % 1000) := by
  simp only [fmt3, fmt3Int, fmt3Frac, h, roundHalfEven_natCast]
  rw [if_neg (by omega)]
  norm_num

/-- C1: a Running session's spent calories equal
(18 * mean_speed + 1.79) * weight / 1000 * duration * 60. -/
theorem running_calories_formula (a d w : ℚ) ( _hd : 0 < d) :
    (Training.running a d w).get_spent_calories
      = (18 * (Training.running a d w).get_mean_speed + 1.79)
          * w / 1000 * d * 60 := by
  simp [Training.get_spent_calories, CALORIES_MEAN_SPEED_MULTIPLIER,
    CALORIES_MEAN_SPEED_SHIFT, M_IN_KM, HOURS_IN_MINUTES]

/-- Witness for C1 at the demo package RUN [15000, 1, 75]. -/
theorem running_calories_formula_witness :
    (Training.running 15000 1 75).get_spent_calories
      = (18 * (Training.running 15000 1 75).get_mean_speed + 1.79)
          * 75 / 1000 * 1 * 60 :=
  running_calories_formula 15000 1 75 (by norm_num)

/-- C2: a SportsWalking session's spent calories equal
(0.035*w + ((mean_speed*0.278)^2 / (height/100)) * 0.029 * w) * (d*60). -/
theorem walking_calories_formula (a d w h : ℚ) ( _hd : 0 < d) ( _hh : h ≠ 0) :
    (Training.sportsWalking a d w h).get_spent_calories
      = (0.035 * w
          + ((Training.sportsWalking a d w h).get_mean_speed * 0.278) ^ 2
              / (h / 100) * 0.029 * w)
          * (d * 60) := by
  simp [Training.get_spent_calories, MULTIPLIER_CALORIES_1,
    MULTIPLIER_CALORIES_2, KMHOUR_IN_MSECOND, SM_IN_MTR, HOURS_IN_MINUTES]

/-- Witness for C2 at the demo package WLK [9000, 1, 75, 180]. -/
theorem walking_calories_formula_witness :
    (Training.sportsWalking 9000 1 75 180).get_spent_calories
      = (0.035 * 75
          + ((Training.sportsWalking 9000 1 75 180).get_mean_speed * 0.278) ^ 2
              / (180 / 100) * 0.029 * 75)
          * (1 * 60) :=
  walking_calories_formula 9000 1 75 180 (by norm_num) (by norm_num)

/-- C3: a Swimming session's spent calories equal
(mean_speed + 1.1) * 2 * weight * duration, with no minutes scaling. -/
theorem swimming_calories_formula (a d w l c : ℚ) ( _hd : 0 < d) :
    (Training.swimming a d w l c).get_spent_calories
      = ((Training.swimming a d w l c).get_mean_speed + 1.1) * 2 * w * d := by
  simp [Training.get_spent_calories, MULTIPLIER_CALORIES_3,
    MULTIPLIER_CALORIES_4]

/-- Witness for C3 at the demo package SWM [720, 1, 80, 25, 40]. -/
theorem swimming_calories_formula_witness :
    (Training.swimming 720 1 80 25 40).get_spent_calories
      = ((Training.swimming 720 1 80 25 40).get_mean_speed + 1.1)
          * 2 * 80 * 1 :=
  swimming_calories_formula 720 1 80 25 40 (by norm_num)

/-- C4: mean speed is distance/duration for Running and SportsWalking,
and length_pool*count_pool/1000/duration for Swimming, the latter
independent of the action field. -/
theorem mean_speed_spec :
    (∀ a d w, 0 < d →
      (Training.running a d w).get_mean_speed
        = (Training.running a d w).get_distance / d)
  ∧ (∀ a d w h, 0 < d →
      (Training.sportsWalking a d w h).get_mean_speed
        = (Training.sportsWalking a d w h).get_distance / d)
  ∧ (∀ a d w l c, 0 < d →
      (Training.swimming a d w l c).get_mean_speed = l * c / 1000 / d)
  ∧ (∀ a a2 d w l c,
      (Training.swimming a d w l c).get_mean_speed
        = (Training.swimming a2 d w l c).get_mean_speed) := by
  refine ⟨?_, ?_, ?_, ?_⟩ <;> intros <;>
    simp [Training.get_mean_speed, Training.get_distance, Training.duration,
      M_IN_KM]

/-- Witness for C4 at the three demo packages. -/
theorem mean_speed_spec_witness :
    (Training.running 15000 1 75).get_mean_speed
      = (Training.running 15000 1 75).get_distance / 1
  ∧ (Training.sportsWalking 9000 1 75 180).get_mean_speed
      = (Training.sportsWalking 9000 1 75 180).get_distance / 1
  ∧ (Training.swimming 720 1 80 25 40).get_mean_speed = 25 * 40 / 1000 / 1
  ∧ (Training.swimming 720 1 80 25 40).get_mean_speed
      = (Training.swimming 999 1 80 25 40).get_mean_speed :=
  ⟨mean_speed_spec.1 15000 1 75 (by norm_num),
   mean_speed_spec.2.1 9000 1 75 180 (by norm_num),
   mean_speed_spec.2.2.1 720 1 80 25 40 (by norm_num),
   mean_speed_spec.2.2.2 720 999 1 80 25 40⟩

/-- C5: distance is action * LEN_STEP / 1000 with LEN_STEP 0.65 for
Running and SportsWalking and 1.38 for Swimming. -/
theorem distance_spec :
    (∀ a d w, (Training.running a d w).get_distance = a * 0.65 / 1000)
  ∧ (∀ a d w h,
      (Training.sportsWalking a d w h).get_distance = a * 0.65 / 1000)
  ∧ (∀ a d w l c,
      (Training.swimming a d w l c).get_distance = a * 1.38 / 1000) := by
  refine ⟨?_, ?_, ?_⟩ <;> intros <;>
    simp [Training.get_distance, Training.LEN_STEP, Training.action, M_IN_KM]

/-- C9: the round trip distance * 1000 / LEN_STEP recovers the stored
action count for every variant. -/
theorem distance_action_roundtrip (t : Training) :
    t.get_distance * 1000 / t.LEN_STEP = t.action := by
  cases t <;>
    simp [Training.get_distance, Training.LEN_STEP, Training.action,
      M_IN_KM] <;>
    ring_nf

/-- C6: read_package yields the invalid-input error exactly on codes
outside SWM, RUN, WLK, and for the three codes binds data positionally
into the matching constructor. -/
theorem read_package_spec :
    (∀ wt data, read_package wt data = .error .invalidWorkout ↔
        ¬(wt = "SWM" ∨ wt = "RUN" ∨ wt = "WLK"))
  ∧ (∀ a d w l c,
      read_package "SWM" [a, d, w, l, c] = .ok (.swimming a d w l c))
  ∧ (∀ a d w, read_package "RUN" [a, d, w] = .ok (.running a d w))
  ∧ (∀ a d w h,
      read_package "WLK" [a, d, w, h] = .ok (.sportsWalking a d w h)) := by
  refine ⟨?_, ?_, ?_, ?_⟩
  · intro wt data
    unfold read_package
    split_ifs with h1 h2 h3 <;> simp_all <;> split <;> simp
  · intro a d w l c; rfl
  · intro a d w; rfl
  · intro a d w h; rfl

/-- C7: the rendered message is exactly the spec's fixed template, with
each numeric field shown with exactly three digits after the point. -/
theorem get_message_renders_template (m : InfoMessage) :
    m.get_message = specRender m
  ∧ ∀ q : ℚ, fmt3 q = fmt3Int q ++ "." ++ fmt3Frac q
      ∧ (fmt3Frac q).length = 3 :=
  ⟨rfl, fun _ => ⟨rfl, rfl⟩⟩

/-- Calories of the demo Running session, as an exact rational. -/
lemma running_demo_calories :
    (Training.running 15000 1 75).get_spent_calories = 159561 / 200 := by
  norm_num [Training.get_spent_calories, Training.get_mean_speed,
    Training.get_distance, Training.action, Training.duration,
    Training.LEN_STEP, M_IN_KM, HOURS_IN_MINUTES,
    CALORIES_MEAN_SPEED_MULTIPLIER, CALORIES_MEAN_SPEED_SHIFT]

/-- Counterexample for C8: at action=15000, duration=1, weight=75 the
Running calories are exactly 797.805, not approximately 797.0028, and
they render as 797.805, not 797.003. -/
theorem running_scenario_counterexample :
    fmt3 ((Training.running 15000 1 75).get_spent_calories) = "797.805"
  ∧ fmt3 ((Training.running 15000 1 75).get_spent_calories) ≠ "797.003"
  ∧ (Training.running 15000 1 75).get_spent_calories - 797.0028 > 1/2 := by
  rw [running_demo_calories, fmt3_eval (159561 / 200) 797805 (by norm_num)]
  refine ⟨by decide, by decide, by norm_num⟩

/-- Amended C8: distance 9.750, mean speed 9.750, calories exactly
797.805, rendered calories field 797.805, full message as fixed. -/
theorem running_scenario_amended :
    (Training.running 15000 1 75).get_distance = 9.750
  ∧ (Training.running 15000 1 75).get_mean_speed = 9.750
  ∧ (Training.running 15000 1 75).get_spent_calories = 797.805
  ∧ (Training.running 15000 1 75).show_training_info.get_message
      = "Тип тренировки: Running; Длительность: 1.000 ч.; Дистанция: 9.750 км; Ср. скорость: 9.750 км/ч; Потрачено ккал: 797.805." := by
  have hdst : (Training.running 15000 1 75).get_distance = 39 / 4 := by
    norm_num [Training.get_distance, Training.action, Training.LEN_STEP,
      M_IN_KM]
  have hspd : (Training.running 15000 1 75).get_mean_speed = 39 / 4 := by
    norm_num [Training.get_mean_speed, Training.get_distance,
      Training.action, Training.duration, Training.LEN_STEP, M_IN_KM]
  refine ⟨by rw [hdst]; norm_num, by rw [hspd]; norm_num,
    by rw [running_demo_calories]; norm_num, ?_⟩
  show "Тип тренировки: " ++ (Training.running 15000 1 75).className
      ++ "; Длительность: " ++ fmt3 (Training.running 15000 1 75).duration
      ++ " ч.; Дистанция: " ++ fmt3 (Training.running 15000 1 75).get_distance
      ++ " км; Ср. скорость: "
      ++ fmt3 (Training.running 15000 1 75).get_mean_speed
      ++ " км/ч; Потрачено ккал: "
      ++ fmt3 (Training.running 15000 1 75).get_spent_calories ++ "." = _
  rw [hdst, hspd, running_demo_calories,
    show (Training.running 15000 1 75).duration = 1 from rfl,
    fmt3_eval (39 / 4) 9750 (by norm_num),
    fmt3_eval 1 1000 (by norm_num),
    fmt3_eval (159561 / 200) 797805 (by norm_num)]
  decide

/-- C10: the report label produced through read_package is the class
name of the constructed variant. -/
theorem label_is_class_name (wt : String) (data : List ℚ) (t : Training)
    (h : read_package wt data = .ok t) :
    (wt = "SWM" → t.show_training_info.training_type = "Swimming")
  ∧ (wt = "RUN" → t.show_training_info.training_type = "Running")
  ∧ (wt = "WLK" → t.show_training_info.training_type = "SportsWalking") := by
  unfold read_package at h
  split_ifs at h with h1 h2 h3
  · subst h1
    refine ⟨fun _ => ?_, fun hw => absurd hw (by decide),
      fun hw => absurd hw (by decide)⟩
    revert h
    split <;> intro h <;> cases h <;> rfl
  · subst h2
    refine ⟨fun hw => absurd hw (by decide), fun _ => ?_,
      fun hw => absurd hw (by decide)⟩
    revert h
    split <;> intro h <;> cases h <;> rfl
  · subst h3
    refine ⟨fun hw => absurd hw (by decide), fun hw => absurd hw (by decide),
      fun _ => ?_⟩
    revert h
    split <;> intro h <;> cases h <;> rfl

/-- Witness for C10 at the demo package WLK [9000, 1, 75, 180]. -/
theorem label_is_class_name_witness :
    ("WLK" = "SWM" →
      (Training.sportsWalking 9000 1 75 180).show_training_info.training_type
        = "Swimming")
  ∧ ("WLK" = "RUN" →
      (Training.sportsWalking 9000 1 75 180).show_training_info.training_type
        = "Running")
  ∧ ("WLK" = "WLK" →
      (Training.sportsWalking 9000 1 75 180).show_training_info.training_type
        = "SportsWalking") :=
  label_is_class_name "WLK" [9000, 1, 75, 180]
    (Training.sportsWalking 9000 1 75 180) rfl

end Homework
